import Mathlib

/-!
Verification of the Hamster Image Uploader core against its specification.

The development shallowly embeds the two core components of the repository:

* the Upload Client (`uploader.py`: `upload_to_hamster`,
  `hamster_upload_single_image`), modelled as pure functions over an abstract
  network (a stream of per-attempt outcomes), returning `Except` to make a
  Python exception that escapes the client explicit, together with the list of
  backoff sleeps performed; and

* the Upload Orchestrator (`main.py`: `UploadWorker.async_upload`), modelled as
  a fold over the file list carrying an explicit file-system state (an
  association list from paths to file contents) and emitting a trace of log
  events mirroring the `log_worker_actions` / signal calls of the source.

Python/JSON data is modelled by the inductive `JVal`; Python `None` coming out
of `dict.get` is modelled by `Option` (`none` covers both an absent key and an
explicit JSON `null`, exactly as in Python, where both produce `None`).
-/

/-- JSON values, as produced by `response.json()` in the source. -/
inductive JVal where
  | jnull
  | jbool (b : Bool)
  | jnum (n : Int)
  | jstr (s : String)
  | jarr (elems : List JVal)
  | jobj (fields : List (String × JVal))

/-- Python truthiness of a JSON value (`if image_block:` in `uploader.py`). -/
def JVal.truthy : JVal → Bool
  | .jnull => false
  | .jbool b => b
  | .jnum n => n != 0
  | .jstr s => s != ""
  | .jarr xs => !xs.isEmpty
  | .jobj fs => !fs.isEmpty

/-- First-match lookup in an association list keyed by strings (Python dicts
have unique keys, so first match is the match). -/
def assocGet {α : Type} (l : List (String × α)) (k : String) : Option α :=
  match l with
  | [] => none
  | (k', v) :: rest => if k' = k then some v else assocGet rest k

/-- `dict.get(k)` on the field list of a JSON object. -/
def jDictGet (fs : List (String × JVal)) (k : String) : Option JVal :=
  assocGet fs k

/-- `dict.get(k)` as seen from Python: an absent key and a JSON `null` value
both come back as Python `None`, modelled as `none`. -/
def pyGet (fs : List (String × JVal)) (k : String) : Option JVal :=
  match jDictGet fs k with
  | some .jnull => none
  | o => o

/-- `x == 200`-style comparison of a `dict.get` result against an integer
(`resp_json.get("status_code") == 200` in `uploader.py` line 27). Any
non-number (or absent) value compares unequal. -/
def isNumEq (v : Option JVal) (n : Int) : Bool :=
  match v with
  | some (.jnum m) => m == n
  | _ => false

/-- Whether the pattern is a leading segment of the character list. -/
def charsLead : List Char → List Char → Bool
  | [], _ => true
  | _ :: _, [] => false
  | p :: ps, c :: cs => p == c && charsLead ps cs

/-- Whether the pattern occurs contiguously anywhere in the character list
(Python `pat in s`). -/
def charsHas (pat : List Char) : List Char → Bool
  | [] => charsLead pat []
  | c :: cs => charsLead pat (c :: cs) || charsHas pat cs

/-- Python `str.lower()`. `Char.toLower` lowercases the ASCII range, which
covers every string the claims compare (`"upload"`, `"skip"`). -/
def pyLower (s : String) : String :=
  ⟨s.data.map Char.toLower⟩

/-- `"upload" in s.lower()` (`uploader.py` line 34). -/
def containsUpload (s : String) : Bool :=
  charsHas "upload".data (pyLower s).data

/-- The normalized result record built by `upload_to_hamster`
(`uploader.py` lines 41-47). A `none` field is Python `None` (missing or null
in the response); it is serialized as JSON `null`. -/
structure UploadResult where
  Uploaded_GMT : Option JVal
  Direct_URL : Option JVal
  Thumb_URL : Option JVal
  Viewer_URL : Option JVal
  Delete_URL : Option JVal

/-- The ways a Python exception can escape one attempt of
`upload_to_hamster` (none of these are `requests.exceptions.RequestException`,
so none are caught by the attempt's `except` clause). -/
inductive PyErr where
  | nonDictResponse
  | nonStringMessage
  | nonDictImage
  | nonDictThumb
deriving DecidableEq

/-- What one network attempt yields before the client inspects it:
a transport error (`requests.exceptions.RequestException`), a body that is not
JSON (`response.json()` raises), or a parsed JSON value. -/
inductive AttemptOutcome where
  | transportError
  | nonJSON
  | json (v : JVal)

/-- Result of processing one attempt inside the retry loop of
`upload_to_hamster`: fall through to the next attempt, return a result, or
let a Python exception escape the whole call. -/
inductive StepResult where
  | retry
  | ok (r : UploadResult)
  | raise (e : PyErr)

/-- `success_message` (`uploader.py` lines 31-35): computed before the `if`,
so if `success` is a dict with `code == 200` but its `message` is present and
not a string, `.lower()` raises regardless of `status_ok`. Short-circuiting
`and` means the message is only inspected when the block is a dict with
`code == 200`. -/
def computeSuccessMessage : JVal → Except PyErr Bool
  | .jobj sfs =>
    if isNumEq (jDictGet sfs "code") 200 then
      match (jDictGet sfs "message").getD (.jstr "") with
      | .jstr m => .ok (containsUpload m)
      | _ => .error .nonStringMessage
    else .ok false
  | _ => .ok false

/-- Field extraction on validation success (`uploader.py` lines 38-53):
`thumb_block = resp_json.get("image", {}).get("thumb", {})` raises if the
image value is truthy but not a dict, or if the `thumb` key is present with a
non-dict value; otherwise the five fields are read with `dict.get`. -/
def extractResult : JVal → StepResult
  | .jobj ifs =>
    match (jDictGet ifs "thumb").getD (.jobj []) with
    | .jobj tfs =>
      .ok { Uploaded_GMT := pyGet ifs "date_gmt"
            Direct_URL := pyGet ifs "url"
            Thumb_URL := pyGet tfs "url"
            Viewer_URL := pyGet ifs "url_short"
            Delete_URL := pyGet ifs "delete_url" }
    | _ => .raise .nonDictThumb
  | _ => .raise .nonDictImage

/-- Processing of a parsed JSON response body (`uploader.py` lines 27-56).
A non-dict body makes the very first `resp_json.get` raise. -/
def processJson : JVal → StepResult
  | .jobj fs =>
    let status_ok := isNumEq (jDictGet fs "status_code") 200
    let success_block := (jDictGet fs "success").getD (.jobj [])
    let image_block := (jDictGet fs "image").getD (.jobj [])
    match computeSuccessMessage success_block with
    | .error e => .raise e
    | .ok success_message =>
      if status_ok && success_message && image_block.truthy then
        extractResult image_block
      else .retry
  | _ => .raise .nonDictResponse

/-- One attempt of the retry loop (`uploader.py` lines 19-59): transport
errors and non-JSON bodies are logged and fall through to the retry logic. -/
def processAttempt : AttemptOutcome → StepResult
  | .transportError => .retry
  | .nonJSON => .retry
  | .json v => processJson v

/-- `True` iff processing this attempt outcome does not let a Python
exception escape the client. -/
def stepNoRaise (o : AttemptOutcome) : Bool :=
  match processAttempt o with
  | .raise _ => false
  | _ => true

/-- `max_retries` (`uploader.py` line 17). -/
def max_retries : Nat := 3

/-- Whether the attempt's response body failed to parse as JSON. On this
outcome `uploader.py` line 25 executes `continue`, jumping straight to the
next iteration and skipping the backoff block at lines 61-64. -/
def isNonJSON : AttemptOutcome → Bool
  | .nonJSON => true
  | _ => false

/-- The retry loop of `upload_to_hamster` (`uploader.py` lines 18-67),
recursing over the remaining attempt numbers (Python's `for attempt in
range(1, max_retries + 1)`). Returns the call's outcome (`Except.error` when
a Python exception escapes; otherwise `some result`, or the `None` of line
67 once the attempt list is exhausted) paired with the list of backoff
sleeps, in seconds, performed between attempts. The backoff block (lines
61-64) sits at the end of the `for` body, so it runs after a transport-error
or failed-validation retry when `attempt < max_retries` (i.e. when further
attempts remain), but a non-JSON response's `continue` (line 25) skips it:
such a retry proceeds immediately with no sleep. -/
def uploadLoop (net : Nat → AttemptOutcome) :
    List Nat → Except PyErr (Option UploadResult) × List Nat
  | [] => (.ok none, [])
  | attempt :: rest =>
    match processAttempt (net attempt) with
    | .ok r => (.ok (some r), [])
    | .raise e => (.error e, [])
    | .retry =>
      let r := uploadLoop net rest
      (r.1, if rest.isEmpty || isNonJSON (net attempt) then r.2
            else 2 * attempt :: r.2)

/-- `upload_to_hamster` (`uploader.py` lines 7-67), abstracted over the
network: `net i` is what the `i`-th POST attempt would yield. -/
def upload_to_hamster (net : Nat → AttemptOutcome) :
    Except PyErr (Option UploadResult) × List Nat :=
  uploadLoop net (List.range' 1 max_retries)

/-- `hamster_upload_single_image` (`uploader.py` lines 70-90): if the local
file does not exist, log and return `None` without touching the network;
otherwise delegate to `upload_to_hamster`. -/
def hamster_upload_single_image (fileExists : Bool)
    (net : Nat → AttemptOutcome) : Except PyErr (Option UploadResult) × List Nat :=
  if fileExists then upload_to_hamster net else (.ok none, [])

/-! ## Orchestrator (`main.py`, `UploadWorker.async_upload`) -/

/-- Severity passed to `log_worker_actions` in the source. -/
inductive LogLevel where
  | info
  | success
  | warn
  | error
deriving DecidableEq

/-- The log messages and signals the worker emits, one constructor per
emission site of `async_upload` (`main.py` lines 104-188), carrying the data
interpolated into the corresponding message. `finished` is the
`finished_signal` of line 188, `workerError` the top-level catch of line 185. -/
inductive Event where
  | starting
  | cancelled
  | errorInaccessible (filename : String)
  | errorOversize (filename : String) (size : Nat)
  | infoPrecheckSkip (filename : String)
  | infoUploading (idx total : Nat) (filename : String)
  | errorUploadException (filename : String)
  | successUploaded (filename : String)
  | infoWroteSingle (path : String)
  | warnInvalidGroupJson (path : String)
  | infoWroteGroup (path : String)
  | errorWriteFailed (filename : String)
  | errorUploadFailed (filename : String)
  | workerError
  | finished
deriving DecidableEq

/-- The severity each emission site uses in the source (`finished` is a Qt
signal, not a log line, hence `none`). -/
def Event.level : Event → Option LogLevel
  | .starting => some .info
  | .cancelled => some .info
  | .errorInaccessible _ => some .error
  | .errorOversize _ _ => some .error
  | .infoPrecheckSkip _ => some .info
  | .infoUploading _ _ _ => some .info
  | .errorUploadException _ => some .error
  | .successUploaded _ => some .success
  | .infoWroteSingle _ => some .info
  | .warnInvalidGroupJson _ => some .warn
  | .infoWroteGroup _ => some .info
  | .errorWriteFailed _ => some .error
  | .errorUploadFailed _ => some .error
  | .workerError => some .error
  | .finished => none

/-- Recognizer for the terminal `finished` signal among emitted events. -/
def isFinished : Event → Bool
  | .finished => true
  | _ => false

/-- Content of a result-store file on disk: either text that is not JSON
(`json.load` raises `JSONDecodeError`) or a parsed JSON document. -/
inductive FileContent where
  | invalid
  | doc (v : JVal)

/-- The file system visible to the worker: an association list from paths to
contents. -/
abbrev FS := List (String × FileContent)

/-- `d[k] = v` on an association list: replace the first binding of `k`
in place (Python dicts keep insertion order on update), or append a new
binding. Also used for writing a file at a path. -/
def setAssoc {α : Type} (l : List (String × α)) (k : String) (v : α) :
    List (String × α) :=
  match l with
  | [] => [(k, v)]
  | (k', v') :: rest =>
    if k' = k then (k, v) :: rest else (k', v') :: setAssoc rest k v

/-- Look up a path in the file system (`Path.exists()` + read). -/
def getFile (fs : FS) (p : String) : Option FileContent :=
  assocGet fs p

/-- The in-memory `group_data` dict that the group-mode writer starts from:
the parsed object's entries when the file holds a JSON object, and the empty
dict when the file is absent or unparseable (`main.py` lines 160-167). -/
def loadGroupEntries : Option FileContent → List (String × JVal)
  | some (.doc (.jobj es)) => es
  | _ => []

/-- What one call to `hamster_upload_single_image` does for a given file, as
seen by the orchestrator's `try`/`except` of `main.py` lines 136-142: either
it raises (caught there) or it returns `None` / a result record. -/
inductive CallOutcome where
  | raises
  | returns (r : Option UploadResult)

/-- Everything about one file of the run that the orchestrator consults:
the derived names (`Path(filepath).name`, `.stem`, parent folder and the
folder's basename), the outcome of `Path(filepath).stat().st_size`
(`none` when it raises), the outcome of the client call, and whether the
result-file `open(..., "w")` of this iteration would raise. -/
structure FileInfo where
  filename : String
  stem : String
  folder : String
  folderName : String
  sizeResult : Option Nat
  callOutcome : CallOutcome
  writeFails : Bool

/-- `MAX_SIZE_BYTES` (`main.py` line 106). -/
def MAX_SIZE_BYTES : Nat := 8000000

/-- `Path(filepath).with_name(f"{Path(filepath).stem}_hamster.txt")`
(`main.py` line 150). -/
def singlePath (f : FileInfo) : String :=
  f.folder ++ "/" ++ f.stem ++ "_hamster.txt"

/-- `folder / f"{folder.name}_hamster_results.txt"` (`main.py` line 158). -/
def groupPath (f : FileInfo) : String :=
  f.folder ++ "/" ++ f.folderName ++ "_hamster_results.txt"

/-- `result.get("Direct_URL")` truthiness: Python `None` (absent or null
field) is falsy, otherwise the value's own truthiness decides. -/
def uploadResultOk (u : UploadResult) : Bool :=
  match u.Direct_URL with
  | none => false
  | some v => v.truthy

/-- `result and result.get("Direct_URL")` (`main.py` line 144): the result
dict is non-empty hence truthy whenever it is not `None`, so the test reduces
to the truthiness of the `Direct_URL` value. -/
def resultSuccess : Option UploadResult → Bool
  | none => false
  | some u => uploadResultOk u

/-- The JSON document value `json.dump` writes for one result record
(insertion order of `uploader.py` lines 41-47; Python `None` serializes as
JSON `null`). -/
def resultToJVal (u : UploadResult) : JVal :=
  .jobj [("Uploaded_GMT", u.Uploaded_GMT.getD .jnull),
         ("Direct_URL", u.Direct_URL.getD .jnull),
         ("Thumb_URL", u.Thumb_URL.getD .jnull),
         ("Viewer_URL", u.Viewer_URL.getD .jnull),
         ("Delete_URL", u.Delete_URL.getD .jnull)]

/-- The result-persistence block of `main.py` lines 147-179 (inside
`try ... except Exception`): single mode overwrites `<stem>_hamster.txt` with
the one-entry document; group mode loads the folder document (warning +
empty dict when the existing file is unparseable), sets the entry for this
filename and writes the whole document back. A parsed document that is not a
JSON object makes `group_data[filename] = result` raise `TypeError`, caught
by the same handler, so nothing is written; a failing `open(..., "w")` is
likewise caught. An unknown mode string matches neither branch and writes
nothing. -/
def writeResult (mode : String) (fs : FS) (f : FileInfo) (u : UploadResult) :
    FS × List Event :=
  if mode = "single" then
    if f.writeFails then (fs, [.errorWriteFailed f.filename])
    else
      (setAssoc fs (singlePath f)
         (.doc (.jobj [(f.filename, resultToJVal u)])),
       [.infoWroteSingle (singlePath f)])
  else if mode = "group" then
    let path := groupPath f
    match getFile fs path with
    | none =>
      if f.writeFails then (fs, [.errorWriteFailed f.filename])
      else
        (setAssoc fs path (.doc (.jobj (setAssoc [] f.filename (resultToJVal u)))),
         [.infoWroteGroup path])
    | some .invalid =>
      if f.writeFails then
        (fs, [.warnInvalidGroupJson path, .errorWriteFailed f.filename])
      else
        (setAssoc fs path (.doc (.jobj (setAssoc [] f.filename (resultToJVal u)))),
         [.warnInvalidGroupJson path, .infoWroteGroup path])
    | some (.doc (.jobj es)) =>
      if f.writeFails then (fs, [.errorWriteFailed f.filename])
      else
        (setAssoc fs path (.doc (.jobj (setAssoc es f.filename (resultToJVal u)))),
         [.infoWroteGroup path])
    | some (.doc _) => (fs, [.errorWriteFailed f.filename])
  else (fs, [])

/-- One iteration of the per-file loop after the stop check (`main.py` lines
113-181): size gate, precheck lookup (`(precheck.get(filename) or
"").lower()`), client call with its per-file `except`, then success/failure
handling. -/
def processFile (mode : String) (precheck : List (String × String))
    (idx total : Nat) (fs : FS) (f : FileInfo) : FS × List Event :=
  match f.sizeResult with
  | none => (fs, [.errorInaccessible f.filename])
  | some size =>
    if size > MAX_SIZE_BYTES then (fs, [.errorOversize f.filename size])
    else
      if pyLower ((assocGet precheck f.filename).getD "") = "skip" then
        (fs, [.infoPrecheckSkip f.filename])
      else
        match f.callOutcome with
        | .raises =>
          (fs, [.infoUploading idx total f.filename,
                .errorUploadException f.filename])
        | .returns none =>
          (fs, [.infoUploading idx total f.filename,
                .errorUploadFailed f.filename])
        | .returns (some u) =>
          if uploadResultOk u then
            let w := writeResult mode fs f u
            (w.1, .infoUploading idx total f.filename ::
                  .successUploaded f.filename :: w.2)
          else
            (fs, [.infoUploading idx total f.filename,
                  .errorUploadFailed f.filename])

/-- The cooperative stop flag as observed at the top of iteration `idx`
(1-based): `UploadWorker.stop` only ever sets `_is_running` to `False`, so
once set before iteration `k` it stays set, i.e. the flag reads `False` at
every iteration `idx ≥ k`. `stopAt = none` means `stop` is never called. -/
def isStopped (stopAt : Option Nat) (idx : Nat) : Bool :=
  match stopAt with
  | none => false
  | some k => k ≤ idx

/-- The per-file loop (`main.py` lines 108-181): at the top of each iteration
the stop flag is checked; if set, the cancellation notice is emitted and the
loop breaks, leaving the file system as is. -/
def runLoop (mode : String) (precheck : List (String × String))
    (stopAt : Option Nat) (total : Nat) :
    Nat → List FileInfo → FS → FS × List Event
  | _, [], fs => (fs, [])
  | idx, f :: rest, fs =>
    if isStopped stopAt idx then (fs, [.cancelled])
    else
      let step := processFile mode precheck idx total fs f
      let tail := runLoop mode precheck stopAt total (idx + 1) rest step.1
      (tail.1, step.2 ++ tail.2)

/-- The event stream of one whole `async_upload` call (`main.py` lines
104-188): the starting line, then the events the loop emitted before it ended
(normally, by cancellation, or cut short by an unexpected exception, in which
case the top-level `except` logs the worker error), and then — in the
`finally` — the single terminal `finished` signal. -/
def asyncUploadEvents (loopEvents : List Event) (crashed : Bool) : List Event :=
  .starting :: (loopEvents ++ (if crashed then [.workerError] else []) ++ [.finished])

/-- `UploadWorker.async_upload` on the normal (exception-free) path: run the
loop over the file list (`total` is `len(self.files)`), then emit `finished`. -/
def async_upload (mode : String) (precheck : List (String × String))
    (stopAt : Option Nat) (files : List FileInfo) (fs : FS) :
    FS × List Event :=
  let r := runLoop mode precheck stopAt files.length 1 files fs
  (r.1, asyncUploadEvents r.2 false)

/-! ## Specification-side definitions

These follow the wording of the specification (for refinement-style claims),
to be compared with the definitions translated from the source above. -/

/-- The validation condition as the specification words it: `status_code ==
200` AND `success.code == 200` AND `success.message` contains "upload"
case-insensitively AND the `image` field present, where presence is rendered
as Python truthiness of the field (the source checks `image_block` for
truthiness only; an empty object does not count as present). An attempt
outcome that is a transport error or a non-JSON body never validates.
`msgCheck` is the `success`-block part of that condition: a dict with
`code == 200` whose `message` (defaulting to the empty string) contains
"upload" case-insensitively. -/
def msgCheck : JVal → Bool
  | .jobj sfs =>
    isNumEq (jDictGet sfs "code") 200
    && (match (jDictGet sfs "message").getD (.jstr "") with
        | .jstr m => containsUpload m
        | _ => false)
  | _ => false

/-- The full claimed validation over an attempt outcome (see the section
comment above `msgCheck`). -/
def claimedValidation : AttemptOutcome → Bool
  | .json (.jobj fs) =>
    isNumEq (jDictGet fs "status_code") 200
    && msgCheck ((jDictGet fs "success").getD (.jobj []))
    && ((jDictGet fs "image").getD (.jobj [])).truthy
  | _ => false

/-! ## Concrete inputs used by witnesses and counterexamples -/

/-- Response carrying a validated success wrapper but an empty `image`
object. -/
def respEmptyImage : JVal :=
  .jobj [("status_code", .jnum 200),
         ("success", .jobj [("code", .jnum 200),
                            ("message", .jstr "image uploaded")]),
         ("image", .jobj [])]

/-- Response identical to `respEmptyImage` except that `image` is a truthy
non-object JSON value (a string). -/
def respStringImage : JVal :=
  .jobj [("status_code", .jnum 200),
         ("success", .jobj [("code", .jnum 200),
                            ("message", .jstr "image uploaded")]),
         ("image", .jstr "https://x/img.png")]

/-- A fully populated validated success response. -/
def respOk : JVal :=
  .jobj [("status_code", .jnum 200),
         ("success", .jobj [("code", .jnum 200),
                            ("message", .jstr "image uploaded")]),
         ("image", .jobj [("date_gmt", .jstr "2025-01-01 00:00:00"),
                          ("url", .jstr "https://ham/i.png"),
                          ("thumb", .jobj [("url", .jstr "https://ham/t.png")]),
                          ("url_short", .jstr "https://ham/v"),
                          ("delete_url", .jstr "https://ham/d")])]

/-- The result record extracted from `respOk`. -/
def resOk : UploadResult :=
  { Uploaded_GMT := some (.jstr "2025-01-01 00:00:00"),
    Direct_URL := some (.jstr "https://ham/i.png"),
    Thumb_URL := some (.jstr "https://ham/t.png"),
    Viewer_URL := some (.jstr "https://ham/v"),
    Delete_URL := some (.jstr "https://ham/d") }

/-- A second, distinguishable result record (used for group-mode merges). -/
def resB : UploadResult :=
  { Uploaded_GMT := some (.jstr "2025-02-02 00:00:00"),
    Direct_URL := some (.jstr "https://ham/b.png"),
    Thumb_URL := none,
    Viewer_URL := none,
    Delete_URL := none }

/-- A network that fails with a transport error on attempts 1 and 2 and
returns `respOk` from attempt 3 on. -/
def netOkAt3 : Nat → AttemptOutcome :=
  fun i => if 3 ≤ i then .json respOk else .transportError

/-- A network whose attempts 1 and 2 return non-JSON bodies and whose
attempt 3 returns `respOk`. -/
def netNonJSONAt3 : Nat → AttemptOutcome :=
  fun i => if 3 ≤ i then .json respOk else .nonJSON

/-- Image fields with only `url` present (for the partial-extraction
witness). -/
def ifsPartial : List (String × JVal) :=
  [("url", .jstr "https://u")]

/-- Top-level fields of a validated success response whose image block is
`ifsPartial`. -/
def fsPartial : List (String × JVal) :=
  [("status_code", .jnum 200),
   ("success", .jobj [("code", .jnum 200), ("message", .jstr "Upload OK")]),
   ("image", .jobj ifsPartial)]

/-- A network on which every attempt fails with a transport error. -/
def netFail : Nat → AttemptOutcome :=
  fun _ => .transportError

/-- File `a.jpg` in folder `d`, small, successful upload, writable store. -/
def fileA : FileInfo :=
  { filename := "a.jpg", stem := "a", folder := "d", folderName := "d",
    sizeResult := some 100, callOutcome := .returns (some resOk),
    writeFails := false }

/-- File `b.jpg` in the same folder `d`, successful upload with `resB`. -/
def fileB : FileInfo :=
  { filename := "b.jpg", stem := "b", folder := "d", folderName := "d",
    sizeResult := some 200, callOutcome := .returns (some resB),
    writeFails := false }

/-- The same file `a.jpg` re-uploaded later with a different result. -/
def fileAagain : FileInfo :=
  { filename := "a.jpg", stem := "a", folder := "d", folderName := "d",
    sizeResult := some 100, callOutcome := .returns (some resB),
    writeFails := false }

/-- File `big.jpg`, one byte over the size ceiling. -/
def fileBig : FileInfo :=
  { filename := "big.jpg", stem := "big", folder := "d", folderName := "d",
    sizeResult := some 8000001, callOutcome := .returns (some resOk),
    writeFails := false }

/-- File whose `stat()` raises. -/
def fileNoStat : FileInfo :=
  { filename := "gone.jpg", stem := "gone", folder := "d", folderName := "d",
    sizeResult := none, callOutcome := .returns (some resOk),
    writeFails := false }

/-- File whose client call returns `None` (upload failure). -/
def fileFail : FileInfo :=
  { filename := "f.jpg", stem := "f", folder := "d", folderName := "d",
    sizeResult := some 100, callOutcome := .returns none,
    writeFails := false }

/-- A file system whose group results document for folder `d` parses to a
JSON array instead of an object. -/
def fsArrayDoc : FS :=
  [("d/d_hamster_results.txt", .doc (.jarr []))]

/-! ## Helper lemmas -/

theorem assocGet_setAssoc_self {α : Type} (l : List (String × α)) (k : String)
    (v : α) : assocGet (setAssoc l k v) k = some v := by
  induction l with
  | nil => simp [setAssoc, assocGet]
  | cons p rest ih =>
    obtain ⟨k', v'⟩ := p
    by_cases h : k' = k
    · simp [setAssoc, assocGet, h]
    · simp [setAssoc, assocGet, h, ih]

theorem assocGet_setAssoc_ne {α : Type} (l : List (String × α))
    (k k' : String) (v : α) (h : k' ≠ k) :
    assocGet (setAssoc l k v) k' = assocGet l k' := by
  have hk : ¬(k = k') := fun hh => h hh.symm
  induction l with
  | nil => simp [setAssoc, assocGet, hk]
  | cons p rest ih =>
    obtain ⟨k'', v''⟩ := p
    by_cases h2 : k'' = k
    · subst h2
      simp [setAssoc, assocGet, hk]
    · simp [setAssoc, assocGet, h2, ih]

theorem uploadLoop_congr (net net' : Nat → AttemptOutcome) :
    ∀ l : List Nat, (∀ i ∈ l, net i = net' i) →
    uploadLoop net l = uploadLoop net' l := by
  intro l
  induction l with
  | nil => intro _; rfl
  | cons a rest ih =>
    intro h
    have ha : net a = net' a := h a (List.mem_cons_self a rest)
    have hrest := ih (fun i hi => h i (List.mem_cons_of_mem a hi))
    simp only [uploadLoop, ha, hrest]

/-- Exhaustive description of the three-attempt loop's returned value in
terms of the per-attempt step results (the sleep list additionally depends
on which retried attempts were non-JSON responses). -/
theorem upload_cases (net : Nat → AttemptOutcome) :
    (upload_to_hamster net).1 =
      (match processAttempt (net 1) with
       | .ok r => .ok (some r)
       | .raise e => .error e
       | .retry =>
         match processAttempt (net 2) with
         | .ok r => .ok (some r)
         | .raise e => .error e
         | .retry =>
           match processAttempt (net 3) with
           | .ok r => .ok (some r)
           | .raise e => .error e
           | .retry => .ok none) := by
  cases h1 : processAttempt (net 1) <;>
  cases h2 : processAttempt (net 2) <;>
  cases h3 : processAttempt (net 3) <;>
  simp [upload_to_hamster, max_retries, uploadLoop, List.range', h1, h2, h3]

theorem extractResult_ne_retry (v : JVal) : extractResult v ≠ .retry := by
  cases v with
  | jobj ifs =>
    simp only [extractResult]
    split <;> simp
  | jnull => simp [extractResult]
  | jbool b => simp [extractResult]
  | jnum n => simp [extractResult]
  | jstr s => simp [extractResult]
  | jarr xs => simp [extractResult]

theorem computeSuccessMessage_spec (v : JVal) (b : Bool)
    (h : computeSuccessMessage v = .ok b) : b = msgCheck v := by
  cases v with
  | jobj sfs =>
    by_cases hc : isNumEq (jDictGet sfs "code") 200 = true
    · cases hm : (jDictGet sfs "message").getD (.jstr "") <;>
        simp [computeSuccessMessage, hc, hm] at h <;>
        simp [msgCheck, hc, hm, h]
    · simp [computeSuccessMessage, hc] at h
      simp [msgCheck, hc, h]
  | jnull => simp [computeSuccessMessage] at h; simp [msgCheck, h]
  | jbool b' => simp [computeSuccessMessage] at h; simp [msgCheck, h]
  | jnum n => simp [computeSuccessMessage] at h; simp [msgCheck, h]
  | jstr s => simp [computeSuccessMessage] at h; simp [msgCheck, h]
  | jarr xs => simp [computeSuccessMessage] at h; simp [msgCheck, h]

theorem upload_none_iff (net : Nat → AttemptOutcome) :
    (upload_to_hamster net).1 = .ok none ↔
    (processAttempt (net 1) = .retry ∧ processAttempt (net 2) = .retry
      ∧ processAttempt (net 3) = .retry) := by
  rw [upload_cases]
  cases h1 : processAttempt (net 1) <;>
  cases h2 : processAttempt (net 2) <;>
  cases h3 : processAttempt (net 3) <;>
  simp [h1, h2, h3]

theorem upload_no_raise (net : Nat → AttemptOutcome)
    (h : ∀ i, 1 ≤ i → i ≤ 3 → stepNoRaise (net i) = true) :
    (upload_to_hamster net).1 = .ok none
    ∨ ∃ r, (upload_to_hamster net).1 = .ok (some r) := by
  rw [upload_cases]
  cases h1 : processAttempt (net 1) with
  | ok r => simp
  | raise e =>
    have hh := h 1 (by omega) (by omega)
    simp [stepNoRaise, h1] at hh
  | retry =>
    cases h2 : processAttempt (net 2) with
    | ok r => simp
    | raise e =>
      have hh := h 2 (by omega) (by omega)
      simp [stepNoRaise, h2] at hh
    | retry =>
      cases h3 : processAttempt (net 3) with
      | ok r => simp
      | raise e =>
        have hh := h 3 (by omega) (by omega)
        simp [stepNoRaise, h3] at hh
      | retry => simp

/-! ## Claims about the Upload Client -/

/-- C10: the client's validation checks the `image` field only for
truthiness, not for being an object. An `image` that is an empty object fails
validation and consumes retry attempts like any other failed validation
(exhausting all three attempts returns `None` after the 2s and 4s backoffs);
an `image` that is a truthy non-object value passes validation and then
raises during field extraction, escaping `upload_to_hamster` on the first
attempt with no retry and no backoff, and the orchestrator's per-file handler
catches such an exception (logging it) instead of receiving a returned result
or a `None` failure. -/
theorem claim_C10_image_truthiness_only :
    processAttempt (.json respEmptyImage) = .retry
    ∧ upload_to_hamster (fun _ => .json respEmptyImage) = (.ok none, [2, 4])
    ∧ processAttempt (.json respStringImage) = .raise .nonDictImage
    ∧ upload_to_hamster (fun _ => .json respStringImage) =
        (.error .nonDictImage, [])
    ∧ processFile "single" [] 1 1 []
        { filename := "a.jpg", stem := "a", folder := "d", folderName := "d",
          sizeResult := some 5, callOutcome := .raises, writeFails := false } =
        ([], [.infoUploading 1 1 "a.jpg", .errorUploadException "a.jpg"]) :=
  ⟨rfl, rfl, rfl, rfl, rfl⟩

/-- C9: on every validated success the client returns the record mapping
`image.date_gmt → Uploaded_GMT`, `image.url → Direct_URL`, `image.thumb.url
→ Thumb_URL`, `image.url_short → Viewer_URL`, `image.delete_url →
Delete_URL`; any field missing from the response is only reported as a
warning — the call still succeeds and returns the partial record with `none`
(serialized as JSON null) for the missing fields. -/
theorem claim_C9_result_mapping (fs ifs tfs : List (String × JVal))
    (himg : (jDictGet fs "image").getD (.jobj []) = .jobj ifs)
    (hthumb : (jDictGet ifs "thumb").getD (.jobj []) = .jobj tfs) :
    (∀ r : UploadResult, processJson (.jobj fs) = .ok r →
       r = { Uploaded_GMT := pyGet ifs "date_gmt",
             Direct_URL := pyGet ifs "url",
             Thumb_URL := pyGet tfs "url",
             Viewer_URL := pyGet ifs "url_short",
             Delete_URL := pyGet ifs "delete_url" })
    ∧ (isNumEq (jDictGet fs "status_code") 200 = true →
       computeSuccessMessage ((jDictGet fs "success").getD (.jobj [])) = .ok true →
       JVal.truthy (.jobj ifs) = true →
       processJson (.jobj fs) =
         .ok { Uploaded_GMT := pyGet ifs "date_gmt",
               Direct_URL := pyGet ifs "url",
               Thumb_URL := pyGet tfs "url",
               Viewer_URL := pyGet ifs "url_short",
               Delete_URL := pyGet ifs "delete_url" }) := by
  constructor
  · intro r h
    cases hcm : computeSuccessMessage ((jDictGet fs "success").getD (.jobj [])) with
    | error e => simp [processJson, hcm] at h
    | ok sm =>
      simp only [processJson, hcm] at h
      split at h
      · rw [himg] at h
        simp only [extractResult, hthumb] at h
        injection h with h2
        exact h2.symm
      · cases h
  · intro hs hm ht
    simp [processJson, hm, himg, hs, ht, extractResult, hthumb]

/-- Witness for C9 at a concrete validated response whose image block only
carries `url`: the call succeeds with `none` for the other fields. -/
theorem claim_C9_result_mapping_witness :
    processJson (.jobj fsPartial) =
      .ok { Uploaded_GMT := pyGet ifsPartial "date_gmt",
            Direct_URL := pyGet ifsPartial "url",
            Thumb_URL := pyGet [] "url",
            Viewer_URL := pyGet ifsPartial "url_short",
            Delete_URL := pyGet ifsPartial "delete_url" } :=
  (claim_C9_result_mapping fsPartial ifsPartial [] rfl rfl).2 rfl rfl rfl

/-- Counterexample to C2 as stated: a call that fails on attempts 1 and 2
with non-JSON responses (both retried) and succeeds on attempt 3 performs no
backoff at all — the `continue` after the non-JSON log skips the sleep block
— so it returns the attempt-3 result with an empty sleep list instead of the
claimed waits of 2s and 4s. -/
theorem claim_C2_retry_policy_counterexample :
    upload_to_hamster netNonJSONAt3 = (.ok (some resOk), [])
    ∧ processAttempt (netNonJSONAt3 1) = .retry
    ∧ processAttempt (netNonJSONAt3 2) = .retry :=
  ⟨rfl, rfl, rfl⟩

/-- C2 (amended): the Upload Client makes at most 3 attempts per call (its
result depends only on what attempts 1-3 would yield); a non-raising attempt
is retried exactly when it fails validation (`claimedValidation`:
`status_code == 200` AND `success.code == 200` AND `success.message`
contains "upload" case-insensitively AND the `image` field present, i.e.
truthy as the code checks presence); between attempts it waits `2 *
attemptNumber` seconds after a transport-error or failed-validation retry
(2s after attempt 1, 4s after attempt 2), while a non-JSON response's retry
proceeds immediately with no backoff; no backoff runs after the final
attempt (exhaustion on transport/validation failures records only [2, 4]);
and a call failing on attempts 1 and 2 and succeeding on attempt 3 returns
the same result value as one succeeding on attempt 1, whichever kind the
failures were. -/
theorem claim_C2_retry_policy :
    (∀ net net' : Nat → AttemptOutcome,
       (∀ i, 1 ≤ i → i ≤ 3 → net i = net' i) →
       upload_to_hamster net = upload_to_hamster net')
    ∧ (∀ o : AttemptOutcome, stepNoRaise o = true →
        (processAttempt o = .retry ↔ claimedValidation o = false))
    ∧ (∀ (net : Nat → AttemptOutcome) (r : UploadResult),
        processAttempt (net 1) = .retry → isNonJSON (net 1) = false →
        processAttempt (net 2) = .retry → isNonJSON (net 2) = false →
        processAttempt (net 3) = .ok r →
        upload_to_hamster net = (.ok (some r), [2, 4]))
    ∧ (∀ (net : Nat → AttemptOutcome) (r : UploadResult),
        processAttempt (net 1) = .ok r →
        upload_to_hamster net = (.ok (some r), []))
    ∧ (∀ net : Nat → AttemptOutcome,
        processAttempt (net 1) = .retry → isNonJSON (net 1) = false →
        processAttempt (net 2) = .retry → isNonJSON (net 2) = false →
        processAttempt (net 3) = .retry →
        upload_to_hamster net = (.ok none, [2, 4]))
    ∧ (∀ (net : Nat → AttemptOutcome) (r : UploadResult),
        net 1 = .nonJSON → net 2 = .nonJSON →
        processAttempt (net 3) = .ok r →
        upload_to_hamster net = (.ok (some r), [])) := by
  refine ⟨?_, ?_, ?_, ?_, ?_, ?_⟩
  · intro net net' h
    apply uploadLoop_congr
    intro i hi
    have hmem : i = 1 ∨ i = 2 ∨ i = 3 := by
      have hr : List.range' 1 max_retries = [1, 2, 3] := rfl
      rw [hr] at hi
      simpa using hi
    rcases hmem with rfl | rfl | rfl
    · exact h 1 (by omega) (by omega)
    · exact h 2 (by omega) (by omega)
    · exact h 3 (by omega) (by omega)
  · intro o hno
    cases o with
    | transportError => simp [processAttempt, claimedValidation]
    | nonJSON => simp [processAttempt, claimedValidation]
    | json v =>
      cases v with
      | jobj fs =>
        cases hcm : computeSuccessMessage ((jDictGet fs "success").getD (.jobj [])) with
        | error e =>
          exfalso
          simp [stepNoRaise, processAttempt, processJson, hcm] at hno
        | ok sm =>
          have hb := computeSuccessMessage_spec _ _ hcm
          simp only [processAttempt, processJson, hcm, claimedValidation]
          rw [← hb]
          by_cases hcond : (isNumEq (jDictGet fs "status_code") 200 && sm
              && ((jDictGet fs "image").getD (.jobj [])).truthy) = true
          · simp [hcond, extractResult_ne_retry]
          · simp only [Bool.not_eq_true] at hcond
            simp [hcond]
      | jnull => simp [stepNoRaise, processAttempt, processJson] at hno
      | jbool b => simp [stepNoRaise, processAttempt, processJson] at hno
      | jnum n => simp [stepNoRaise, processAttempt, processJson] at hno
      | jstr s => simp [stepNoRaise, processAttempt, processJson] at hno
      | jarr xs => simp [stepNoRaise, processAttempt, processJson] at hno
  · intro net r h1 hj1 h2 hj2 h3
    simp [upload_to_hamster, max_retries, uploadLoop, List.range',
      h1, hj1, h2, hj2, h3]
  · intro net r h1
    simp [upload_to_hamster, max_retries, uploadLoop, List.range', h1]
  · intro net h1 hj1 h2 hj2 h3
    simp [upload_to_hamster, max_retries, uploadLoop, List.range',
      h1, hj1, h2, hj2, h3]
  · intro net r hn1 hn2 h3
    have h1 : processAttempt (net 1) = .retry := by rw [hn1]; rfl
    have h2 : processAttempt (net 2) = .retry := by rw [hn2]; rfl
    have hj1 : isNonJSON (net 1) = true := by rw [hn1]; rfl
    have hj2 : isNonJSON (net 2) = true := by rw [hn2]; rfl
    simp [upload_to_hamster, max_retries, uploadLoop, List.range',
      h1, h2, hj1, hj2, h3]

/-- Witness for C2 (amended): transport failures on attempts 1 and 2 with
success on attempt 3 yield `resOk` with backoffs [2, 4]; immediate success
yields the same `resOk` with no backoff; non-JSON failures on attempts 1 and
2 also yield the same `resOk` but with no backoff; and the retry criterion
instantiated at the all-success response. -/
theorem claim_C2_retry_policy_witness :
    upload_to_hamster netOkAt3 = (.ok (some resOk), [2, 4])
    ∧ upload_to_hamster (fun _ => .json respOk) = (.ok (some resOk), [])
    ∧ upload_to_hamster netNonJSONAt3 = (.ok (some resOk), [])
    ∧ (processAttempt (.json respOk) = .retry ↔
        claimedValidation (.json respOk) = false) :=
  ⟨claim_C2_retry_policy.2.2.1 netOkAt3 resOk rfl rfl rfl rfl rfl,
   claim_C2_retry_policy.2.2.2.1 (fun _ => .json respOk) resOk rfl,
   claim_C2_retry_policy.2.2.2.2.2 netNonJSONAt3 resOk rfl rfl rfl,
   claim_C2_retry_policy.2.1 (.json respOk) rfl⟩

/-- C3: the client call returns the no-result failure value `None` — raising
no exception for transport or validation errors — exactly when the local file
does not exist (in which case no network attempt and no backoff happens) or
when all 3 attempts are exhausted without a validated success; otherwise,
provided no attempt raises during extraction, it returns a normalized result
record. -/
theorem claim_C3_failure_is_none (e : Bool) (net : Nat → AttemptOutcome) :
    (hamster_upload_single_image false net = (.ok none, []))
    ∧ ((hamster_upload_single_image e net).1 = .ok none ↔
        (e = false ∨ (processAttempt (net 1) = .retry
          ∧ processAttempt (net 2) = .retry
          ∧ processAttempt (net 3) = .retry)))
    ∧ ((∀ i, 1 ≤ i → i ≤ 3 → stepNoRaise (net i) = true) →
        (hamster_upload_single_image e net).1 = .ok none
        ∨ ∃ r, (hamster_upload_single_image e net).1 = .ok (some r)) := by
  refine ⟨rfl, ?_, ?_⟩
  · cases e with
    | false => simp [hamster_upload_single_image]
    | true =>
      simp only [hamster_upload_single_image, if_true]
      rw [upload_none_iff]
      simp
  · cases e with
    | false => intro _; left; rfl
    | true =>
      intro h
      simpa [hamster_upload_single_image] using upload_no_raise net h

/-- Witness for C3: with an existing file and every attempt a transport
error, the call yields the `None` failure (here via the no-raise conjunct). -/
theorem claim_C3_failure_is_none_witness :
    (hamster_upload_single_image true netFail).1 = .ok none
    ∨ ∃ r, (hamster_upload_single_image true netFail).1 = .ok (some r) :=
  (claim_C3_failure_is_none true netFail).2.2 (fun _ _ _ => rfl)

theorem setAssoc_idem {α : Type} (l : List (String × α)) (k : String) (v : α) :
    setAssoc (setAssoc l k v) k v = setAssoc l k v := by
  induction l with
  | nil => simp [setAssoc]
  | cons p rest ih =>
    obtain ⟨k', v'⟩ := p
    by_cases h : k' = k
    · simp [setAssoc, h]
    · simp [setAssoc, h, ih]

theorem countP_take_zero {α : Type} (p : α → Bool) (l : List α)
    (h : l.countP p = 0) : ∀ n : Nat, (l.take n).countP p = 0 := by
  induction l with
  | nil => intro n; simp
  | cons a rest ih =>
    intro n
    rw [List.countP_cons] at h
    have hrest : rest.countP p = 0 := by omega
    have ha : (if p a then 1 else 0) = 0 := by omega
    cases n with
    | zero => simp
    | succ m =>
      rw [List.take_succ_cons, List.countP_cons, ih hrest m, ha]

theorem writeResult_no_finished (mode : String) (fs : FS) (f : FileInfo)
    (u : UploadResult) :
    ((writeResult mode fs f u).2).countP isFinished = 0 := by
  simp only [writeResult]
  repeat' split
  all_goals simp [isFinished, List.countP_cons]

theorem processFile_no_finished (mode : String)
    (precheck : List (String × String)) (idx total : Nat) (fs : FS)
    (f : FileInfo) :
    ((processFile mode precheck idx total fs f).2).countP isFinished = 0 := by
  simp only [processFile]
  repeat' split
  all_goals
    simp [isFinished, List.countP_cons, writeResult_no_finished]

theorem runLoop_no_finished (mode : String)
    (precheck : List (String × String)) (stopAt : Option Nat) (total : Nat) :
    ∀ (files : List FileInfo) (idx : Nat) (fs : FS),
    ((runLoop mode precheck stopAt total idx files fs).2).countP isFinished = 0 := by
  intro files
  induction files with
  | nil => intro idx fs; simp [runLoop]
  | cons f rest ih =>
    intro idx fs
    simp only [runLoop]
    split
    · simp [isFinished, List.countP_cons]
    · simp [List.countP_append, processFile_no_finished, ih]

theorem runLoop_stop (mode : String) (precheck : List (String × String))
    (total k : Nat) :
    ∀ (files : List FileInfo) (j : Nat) (fs : FS), j ≤ k →
    k < j + files.length →
    runLoop mode precheck (some k) total j files fs =
      ((runLoop mode precheck none total j (files.take (k - j)) fs).1,
       (runLoop mode precheck none total j (files.take (k - j)) fs).2
         ++ [Event.cancelled]) := by
  intro files
  induction files with
  | nil =>
    intro j fs hj hk
    exfalso
    simp only [List.length_nil] at hk
    omega
  | cons f rest ih =>
    intro j fs hj hk
    simp only [List.length_cons] at hk
    by_cases hstop : k ≤ j
    · have h0 : k - j = 0 := by omega
      simp [runLoop, isStopped, hstop, h0]
    · have hlt : j < k := by omega
      have hfalse : ¬(k ≤ j) := hstop
      have hm : k - j = (k - j - 1) + 1 := by omega
      have hrec := ih (j + 1) (processFile mode precheck j total fs f).1
        (by omega) (by omega)
      have hidx : k - (j + 1) = k - j - 1 := by omega
      rw [hidx] at hrec
      rw [hm, List.take_succ_cons]
      simp only [runLoop, isStopped, hfalse, decide_eq_true_eq, if_neg hfalse,
        hrec]
      simp [List.append_assoc]

theorem asyncUploadEvents_last (evs : List Event) (crashed : Bool) :
    (asyncUploadEvents evs crashed).getLast? = some .finished := by
  cases crashed with
  | true =>
    rw [show asyncUploadEvents evs true =
        (Event.starting :: (evs ++ [Event.workerError])) ++ [Event.finished] by
      simp [asyncUploadEvents]]
    exact List.getLast?_concat _
  | false =>
    rw [show asyncUploadEvents evs false =
        (Event.starting :: evs) ++ [Event.finished] by
      simp [asyncUploadEvents]]
    exact List.getLast?_concat _

theorem asyncUploadEvents_countP (evs : List Event) (crashed : Bool)
    (h : evs.countP isFinished = 0) :
    (asyncUploadEvents evs crashed).countP isFinished = 1 := by
  cases crashed <;>
    simp [asyncUploadEvents, List.countP_append, List.countP_cons, h, isFinished]

/-! ## Claims about the Upload Orchestrator -/

/-- C5: every run emits the terminal `finished` signal exactly once and as
its last event, regardless of whether the per-file loop ended by exhausting
the file list, by cancellation, or cut short after any prefix of its emitted
events by an unexpected internal exception (which the worker catches and
logs rather than propagates); the normal exception-free path of
`async_upload` likewise emits it exactly once, after the loop's events. -/
theorem claim_C5_finished_once (mode : String)
    (precheck : List (String × String)) (stopAt : Option Nat)
    (files : List FileInfo) (fs : FS) (n : Nat) (crashed : Bool) :
    (asyncUploadEvents
        (((runLoop mode precheck stopAt files.length 1 files fs).2).take n)
        crashed).countP isFinished = 1
    ∧ (asyncUploadEvents
        (((runLoop mode precheck stopAt files.length 1 files fs).2).take n)
        crashed).getLast? = some .finished
    ∧ (async_upload mode precheck stopAt files fs).2.countP isFinished = 1 := by
  have h0 := runLoop_no_finished mode precheck stopAt files.length files 1 fs
  refine ⟨asyncUploadEvents_countP _ _ (countP_take_zero isFinished _ h0 n),
          asyncUploadEvents_last _ _, ?_⟩
  simp only [async_upload]
  exact asyncUploadEvents_countP _ _ h0

/-- C8: the stop flag is observed only at the top of each per-file
iteration: when it is set before (1-indexed) file `k` is processed and the
list has at least `k` files, the run behaves exactly like an unstopped run
over the first `k - 1` files — those are processed and persisted per the
normal rules and their writes are not rolled back — followed by the single
cancellation notice; file `k` and everything after it is untouched. -/
theorem claim_C8_cancellation (mode : String)
    (precheck : List (String × String)) (total k : Nat)
    (files : List FileInfo) (fs : FS) (h1 : 1 ≤ k) (h2 : k ≤ files.length) :
    runLoop mode precheck (some k) total 1 files fs =
      ((runLoop mode precheck none total 1 (files.take (k - 1)) fs).1,
       (runLoop mode precheck none total 1 (files.take (k - 1)) fs).2
         ++ [Event.cancelled]) :=
  runLoop_stop mode precheck total k files 1 fs h1 (by omega)

/-- Witness for C8: stopping before file 2 of three files processes only the
first file and then emits the cancellation notice. -/
theorem claim_C8_cancellation_witness :
    runLoop "single" [] (some 2) 3 1 [fileA, fileBig, fileB] [] =
      ((runLoop "single" [] none 3 1 ([fileA, fileBig, fileB].take 1) []).1,
       (runLoop "single" [] none 3 1 ([fileA, fileBig, fileB].take 1) []).2
         ++ [Event.cancelled]) :=
  claim_C8_cancellation "single" [] 3 2 [fileA, fileBig, fileB] []
    (by decide) (by decide)

/-- C6: a file whose size exceeds the fixed 8,000,000-byte ceiling is logged
as an error and skipped — the step leaves the result store untouched and
emits only the oversize error, whatever the client call would have returned,
so the Upload Client is never invoked; a file whose size cannot be read is
likewise logged as an error and skipped without retry. -/
theorem claim_C6_size_gate (mode : String) (precheck : List (String × String))
    (idx total : Nat) (fs : FS) (f : FileInfo) :
    (∀ n, f.sizeResult = some n → n > MAX_SIZE_BYTES →
       processFile mode precheck idx total fs f =
         (fs, [.errorOversize f.filename n]))
    ∧ (f.sizeResult = none →
       processFile mode precheck idx total fs f =
         (fs, [.errorInaccessible f.filename]))
    ∧ (∀ n, (Event.errorOversize f.filename n).level = some .error)
    ∧ (Event.errorInaccessible f.filename).level = some .error := by
  refine ⟨?_, ?_, fun n => rfl, rfl⟩
  · intro n h hn
    simp [processFile, h, hn]
  · intro h
    simp [processFile, h]

/-- Witness for C6: a 8,000,001-byte file and a stat-failing file are both
skipped with an error and an untouched store. -/
theorem claim_C6_size_gate_witness :
    processFile "single" [] 1 2 [] fileBig =
      ([], [.errorOversize "big.jpg" 8000001])
    ∧ processFile "single" [] 2 2 [] fileNoStat =
      ([], [.errorInaccessible "gone.jpg"]) :=
  ⟨(claim_C6_size_gate "single" [] 1 2 [] fileBig).1 8000001 rfl (by decide),
   (claim_C6_size_gate "single" [] 2 2 [] fileNoStat).2.1 rfl⟩

/-- C7: a filename mapped to decision "skip" (compared case-insensitively,
via lowercasing) in the precheck map is logged at info level and skipped
without invoking the Upload Client or touching the store; a filename missing
from the map is treated as "do not skip": the step behaves exactly as with
an empty precheck map and proceeds to the upload (its first emitted event is
the uploading progress line). -/
theorem claim_C7_precheck_skip (mode : String)
    (precheck : List (String × String)) (idx total : Nat) (fs : FS)
    (f : FileInfo) (n : Nat)
    (hsz : f.sizeResult = some n) (hn : ¬ n > MAX_SIZE_BYTES) :
    (pyLower ((assocGet precheck f.filename).getD "") = "skip" →
       processFile mode precheck idx total fs f =
         (fs, [.infoPrecheckSkip f.filename])
       ∧ (Event.infoPrecheckSkip f.filename).level = some .info)
    ∧ (assocGet precheck f.filename = none →
       processFile mode precheck idx total fs f =
         processFile mode [] idx total fs f
       ∧ (processFile mode precheck idx total fs f).2.head? =
           some (.infoUploading idx total f.filename)) := by
  constructor
  · intro hp
    exact ⟨by simp [processFile, hsz, hn, hp], rfl⟩
  · intro hnone
    have hne : ¬ pyLower ((assocGet precheck f.filename).getD "") = "skip" := by
      rw [hnone]
      decide
    have hne2 : ¬ pyLower ((assocGet ([] : List (String × String))
        f.filename).getD "") = "skip" := by
      simp only [assocGet]
      decide
    constructor
    · simp [processFile, hsz, hn, hne, hne2]
    · cases hc : f.callOutcome with
      | raises => simp [processFile, hsz, hn, hne, hc]
      | returns r =>
        cases r with
        | none => simp [processFile, hsz, hn, hne, hc]
        | some u =>
          by_cases hu : uploadResultOk u = true
          · simp [processFile, hsz, hn, hne, hc, hu]
          · simp only [Bool.not_eq_true] at hu
            simp [processFile, hsz, hn, hne, hc, hu]

/-- Witness for C7: the decision "Skip" (mixed case) suppresses the upload of
`a.jpg`; with no precheck entry the step starts uploading. -/
theorem claim_C7_precheck_skip_witness :
    processFile "single" [("a.jpg", "Skip")] 1 1 [] fileA =
      ([], [.infoPrecheckSkip "a.jpg"])
    ∧ (processFile "single" [] 1 1 [] fileA).2.head? =
        some (.infoUploading 1 1 "a.jpg") :=
  ⟨((claim_C7_precheck_skip "single" [("a.jpg", "Skip")] 1 1 [] fileA 100
      rfl (by decide)).1 (by decide)).1,
   ((claim_C7_precheck_skip "single" [] 1 1 [] fileA 100
      rfl (by decide)).2 rfl).2⟩

/-- C1: in single mode, for a file that passes the size and precheck gates
and whose upload result is non-null with a truthy (non-empty) `Direct_URL`,
and whose store write does not itself fail, the step writes
`<folder>/<stem>_hamster.txt` containing exactly the one-entry document
mapping the filename to the result, fully overwriting whatever was at that
path (so repeating the step with the same result leaves an identical store,
with no residue of prior content); when the result is `None` or its
`Direct_URL` is absent or empty, no result file is written and the failure
is logged as an error. -/
theorem claim_C1_single_mode (precheck : List (String × String))
    (idx total : Nat) (fs : FS) (f : FileInfo) (n : Nat)
    (hsz : f.sizeResult = some n) (hn : ¬ n > MAX_SIZE_BYTES)
    (hpre : ¬ pyLower ((assocGet precheck f.filename).getD "") = "skip") :
    (∀ u, f.callOutcome = .returns (some u) → uploadResultOk u = true →
      f.writeFails = false →
      processFile "single" precheck idx total fs f =
        (setAssoc fs (singlePath f)
           (.doc (.jobj [(f.filename, resultToJVal u)])),
         [.infoUploading idx total f.filename, .successUploaded f.filename,
          .infoWroteSingle (singlePath f)])
      ∧ getFile (processFile "single" precheck idx total fs f).1
          (singlePath f) = some (.doc (.jobj [(f.filename, resultToJVal u)]))
      ∧ (processFile "single" precheck idx total
           (processFile "single" precheck idx total fs f).1 f).1 =
          (processFile "single" precheck idx total fs f).1)
    ∧ (∀ r, f.callOutcome = .returns r → resultSuccess r = false →
      processFile "single" precheck idx total fs f =
        (fs, [.infoUploading idx total f.filename,
              .errorUploadFailed f.filename])
      ∧ (Event.errorUploadFailed f.filename).level = some .error) := by
  constructor
  · intro u hc hu hw
    have hstep : ∀ fs' : FS, processFile "single" precheck idx total fs' f =
        (setAssoc fs' (singlePath f)
           (.doc (.jobj [(f.filename, resultToJVal u)])),
         [.infoUploading idx total f.filename, .successUploaded f.filename,
          .infoWroteSingle (singlePath f)]) := by
      intro fs'
      simp [processFile, hsz, hn, hpre, hc, hu, writeResult, hw]
    refine ⟨hstep fs, ?_, ?_⟩
    · rw [hstep fs]
      simp [getFile, assocGet_setAssoc_self]
    · simp [hstep, setAssoc_idem]
  · intro r hc hr
    refine ⟨?_, rfl⟩
    cases r with
    | none => simp [processFile, hsz, hn, hpre, hc]
    | some u' =>
      have hu' : uploadResultOk u' = false := by
        simpa [resultSuccess] using hr
      simp [processFile, hsz, hn, hpre, hc, hu']

/-- Witness for C1: `a.jpg` succeeds and its sibling result file holds
exactly the one-entry document; `f.jpg` returns `None` and nothing is
written. -/
theorem claim_C1_single_mode_witness :
    processFile "single" [] 1 1 [] fileA =
      (setAssoc [] (singlePath fileA)
         (.doc (.jobj [("a.jpg", resultToJVal resOk)])),
       [.infoUploading 1 1 "a.jpg", .successUploaded "a.jpg",
        .infoWroteSingle (singlePath fileA)])
    ∧ processFile "single" [] 1 1 [] fileFail =
      ([], [.infoUploading 1 1 "f.jpg", .errorUploadFailed "f.jpg"]) :=
  ⟨((claim_C1_single_mode [] 1 1 [] fileA 100 rfl (by decide) (by decide)).1
      resOk rfl rfl rfl).1,
   (((claim_C1_single_mode [] 1 1 [] fileFail 100 rfl (by decide)
      (by decide)).2) none rfl rfl).1⟩

/-- Counterexample to C4 as stated: when the existing folder document is
present and parseable but is not a JSON object (here the array `[]`), the
claimed read-modify-write does not happen — the entry assignment raises,
the write-failure handler logs an error, the store is left unchanged and no
entry for the uploaded filename appears, contradicting "the whole document
is written back" for this successful upload. -/
theorem claim_C4_group_merge_counterexample :
    processFile "group" [] 1 1 fsArrayDoc fileA =
      (fsArrayDoc, [.infoUploading 1 1 "a.jpg", .successUploaded "a.jpg",
                    .errorWriteFailed "a.jpg"])
    ∧ getFile (processFile "group" [] 1 1 fsArrayDoc fileA).1
        (groupPath fileA) = some (.doc (.jarr [])) :=
  ⟨rfl, rfl⟩

/-- C4 (amended): in group mode each successful upload performs one
read-modify-write of `<folder>/<folder_basename>_hamster_results.txt`: the
existing document is loaded (absent file: empty document; present but
unparseable: a warning is logged and an empty document is used instead),
only the entry for this filename is set, and the whole document is written
back — provided that the existing file, when it parses, parses to a JSON
object (a non-object document instead makes the entry assignment raise,
which the write-failure handler catches, leaving the store unchanged; see
the counterexample). Setting one entry leaves every other entry unchanged,
so uploading A then B yields a document with both entries and re-uploading A
replaces only A's entry. -/
theorem claim_C4_group_merge (precheck : List (String × String))
    (idx total : Nat) (fs : FS) (f : FileInfo) (n : Nat) (u : UploadResult)
    (hsz : f.sizeResult = some n) (hn : ¬ n > MAX_SIZE_BYTES)
    (hpre : ¬ pyLower ((assocGet precheck f.filename).getD "") = "skip")
    (hc : f.callOutcome = .returns (some u)) (hu : uploadResultOk u = true)
    (hw : f.writeFails = false) :
    ((getFile fs (groupPath f) = none
        ∨ (∃ es, getFile fs (groupPath f) = some (.doc (.jobj es)))) →
      processFile "group" precheck idx total fs f =
        (setAssoc fs (groupPath f)
           (.doc (.jobj (setAssoc (loadGroupEntries (getFile fs (groupPath f)))
              f.filename (resultToJVal u)))),
         [.infoUploading idx total f.filename, .successUploaded f.filename,
          .infoWroteGroup (groupPath f)]))
    ∧ (getFile fs (groupPath f) = some .invalid →
      processFile "group" precheck idx total fs f =
        (setAssoc fs (groupPath f)
           (.doc (.jobj (setAssoc [] f.filename (resultToJVal u)))),
         [.infoUploading idx total f.filename, .successUploaded f.filename,
          .warnInvalidGroupJson (groupPath f), .infoWroteGroup (groupPath f)]))
    ∧ (∀ (es : List (String × JVal)) (k : String) (v : JVal),
        jDictGet (setAssoc es k v) k = some v
        ∧ ∀ k', k' ≠ k → jDictGet (setAssoc es k v) k' = jDictGet es k') := by
  refine ⟨?_, ?_, ?_⟩
  · intro hg
    rcases hg with hnone | ⟨es, hes⟩
    · simp [processFile, hsz, hn, hpre, hc, hu, writeResult, hw, hnone,
        loadGroupEntries]
    · simp [processFile, hsz, hn, hpre, hc, hu, writeResult, hw, hes,
        loadGroupEntries]
  · intro hinv
    simp [processFile, hsz, hn, hpre, hc, hu, writeResult, hw, hinv]
  · intro es k v
    exact ⟨assocGet_setAssoc_self es k v,
           fun k' hk => assocGet_setAssoc_ne es k k' v hk⟩

/-- Witness for C4 (amended): uploading `a.jpg` into an empty folder obeys
the read-modify-write equation; moreover the concrete run uploading `a.jpg`
then `b.jpg` and then re-uploading `a.jpg` with a new result yields a folder
document in which `b.jpg` is untouched and only `a.jpg`'s entry changed. -/
theorem claim_C4_group_merge_witness :
    processFile "group" [] 1 2 [] fileA =
      (setAssoc [] (groupPath fileA)
         (.doc (.jobj (setAssoc (loadGroupEntries (getFile [] (groupPath fileA)))
            "a.jpg" (resultToJVal resOk)))),
       [.infoUploading 1 2 "a.jpg", .successUploaded "a.jpg",
        .infoWroteGroup (groupPath fileA)])
    ∧ getFile (processFile "group" [] 2 2
          (processFile "group" [] 1 2 [] fileA).1 fileB).1
        "d/d_hamster_results.txt" =
      some (.doc (.jobj [("a.jpg", resultToJVal resOk),
                         ("b.jpg", resultToJVal resB)]))
    ∧ getFile (processFile "group" [] 1 1
          (processFile "group" [] 2 2
            (processFile "group" [] 1 2 [] fileA).1 fileB).1 fileAagain).1
        "d/d_hamster_results.txt" =
      some (.doc (.jobj [("a.jpg", resultToJVal resB),
                         ("b.jpg", resultToJVal resB)])) :=
  ⟨(claim_C4_group_merge [] 1 2 [] fileA 100 resOk rfl (by decide) (by decide)
      rfl rfl rfl).1 (Or.inl rfl),
   rfl, rfl⟩
